import Mathlib

/-!
Verification of the movie-pipeline repository (etl.py, enrich_missing.py,
run_queries.py) against its natural-language specification.

The Python sources are shallowly embedded: pure functions become Lean
functions, the stateful OMDb client becomes explicit state passing over a
client-state record, SQL statements become functions on an explicit list of
movie rows, and fallible Python code (exceptions) is rendered with Except.
Python dictionaries for OMDb responses are rendered as records of Option
fields; a value bound to None and an absent key are identified (the sources
never distinguish them), and an extra Boolean records whether the dictionary
holds any further keys, so that Python truthiness of the dictionary is
representable.
-/

/-! ## String helpers mirroring Python primitives -/

/-- Case-insensitive-ready substring test: does `pat` occur inside `hay`?
Mirrors the Python `pat in hay` operator on strings (callers lower-case
their inputs first, as the sources do). -/
def strContainsSub (hay pat : String) : Bool :=
  hay.toList.tails.any (fun t => pat.toList.isPrefixOf t)

/-- Python `str.lower()` (the sources only lower-case ASCII error text). -/
def pyLower (s : String) : String :=
  String.mk (s.toList.map Char.toLower)

/-- Python `str.strip()`: remove surrounding whitespace. -/
def pyStrip (s : String) : String :=
  String.mk (((s.toList.dropWhile Char.isWhitespace).reverse.dropWhile
    Char.isWhitespace).reverse)

/-- Whitespace tokenizer: the accumulated (reversed) current token and the
remaining characters. -/
def wsTokensAux : List Char → List Char → List String
  | acc, [] => if acc.isEmpty then [] else [String.mk acc.reverse]
  | acc, c :: rest =>
    if c.isWhitespace then
      if acc.isEmpty then wsTokensAux [] rest
      else String.mk acc.reverse :: wsTokensAux [] rest
    else wsTokensAux (c :: acc) rest

/-- Python `str.split()` with no separator: split on whitespace runs and
drop empty pieces. -/
def pyTokens (s : String) : List String :=
  wsTokensAux [] s.toList

/-- Python truthiness of an optional string (`if x:`): false for None and
for the empty string. -/
def pyStrTruthy (o : Option String) : Bool :=
  match o with
  | some s => !s.isEmpty
  | none => false

/-- Python truthiness of an optional integer (`if year:`): false for None
and for 0. -/
def pyIntTruthy (o : Option Int) : Bool :=
  match o with
  | some v => decide (v ≠ 0)
  | none => false

/-- Python `f"{title}||{year}"`: the cache key of both query_omdb variants.
`None` prints as the literal text `None`. -/
def mkKey (title : String) (year : Option Int) : String :=
  title ++ "||" ++ (match year with | none => "None" | some y => toString y)

/-- Python exceptions raised by the primitives used in clean_omdb_response. -/
inductive PyExc where
  | valueError
  | indexError
  | typeError
deriving DecidableEq, Repr

/-- Numeric value of a non-empty run of decimal digits. -/
def digitsVal (cs : List Char) : Option Nat :=
  if cs.isEmpty || !cs.all Char.isDigit then none
  else some (cs.foldl (fun a c => a * 10 + (c.toNat - 48)) 0)

/-- Python `int(s)` on a string: strip surrounding whitespace, optional
sign, then a non-empty digit run; anything else raises ValueError.
(Digit-group underscores accepted by CPython are not modelled; no claim
depends on them.) -/
def pyIntE (s : String) : Except PyExc Int :=
  let cs := (pyStrip s).toList
  match cs with
  | '-' :: rest =>
    match digitsVal rest with
    | some v => .ok (-(v : Int))
    | none => .error .valueError
  | '+' :: rest =>
    match digitsVal rest with
    | some v => .ok (v : Int)
    | none => .error .valueError
  | rest =>
    match digitsVal rest with
    | some v => .ok (v : Int)
    | none => .error .valueError

/-! ## Date parsing (`datetime.strptime` with the two formats of the
sources, followed by `.date().isoformat()`) -/

/-- Lower-case month abbreviations recognised by `%b` in the C locale. -/
def monthAbbrevs : List String :=
  ["jan", "feb", "mar", "apr", "may", "jun", "jul", "aug", "sep", "oct", "nov", "dec"]

/-- Gregorian leap-year rule used by `datetime`. -/
def isLeap (y : Nat) : Bool :=
  y % 4 = 0 && (y % 100 ≠ 0 || y % 400 = 0)

/-- Days in a month, as validated by the `datetime` constructor. -/
def daysInMonth (y m : Nat) : Nat :=
  if m = 2 then (if isLeap y then 29 else 28)
  else if m = 4 || m = 6 || m = 9 || m = 11 then 30
  else 31

/-- The `%d` pattern of strptime: `3[01]|[12]\d|0[1-9]|[1-9]` applied to a
maximal digit run, i.e. one digit 1-9 or two digits giving 1-31. -/
def dayFromRun (run : List Char) : Option Nat :=
  match run with
  | [c] => if c = '0' then none else some (c.toNat - 48)
  | [c1, c2] =>
    let v := (c1.toNat - 48) * 10 + (c2.toNat - 48)
    if 1 ≤ v ∧ v ≤ 31 then some v else none
  | _ => none

/-- The `%m` pattern of strptime: `1[0-2]|0[1-9]|[1-9]` applied to a
maximal digit run. -/
def monthFromRun (run : List Char) : Option Nat :=
  match run with
  | [c] => if c = '0' then none else some (c.toNat - 48)
  | [c1, c2] =>
    let v := (c1.toNat - 48) * 10 + (c2.toNat - 48)
    if 1 ≤ v ∧ v ≤ 12 then some v else none
  | _ => none

/-- A literal space in a strptime format matches a non-empty whitespace run. -/
def skipWs1 (cs : List Char) : Option (List Char) :=
  match cs with
  | c :: rest => if c.isWhitespace then some (rest.dropWhile Char.isWhitespace) else none
  | [] => none

/-- `datetime.strptime(s, "%d %b %Y")` followed by the `datetime`
constructor checks; returns (year, month, day) or raises ValueError. -/
def strptimeDMY (s : String) : Except PyExc (Nat × Nat × Nat) :=
  let cs := s.toList
  let p1 := cs.span Char.isDigit
  match dayFromRun p1.1 with
  | none => .error .valueError
  | some d =>
    match skipWs1 p1.2 with
    | none => .error .valueError
    | some r2 =>
      let low := pyLower (String.mk (r2.take 3))
      match monthAbbrevs.findIdx? (fun a => a = low) with
      | none => .error .valueError
      | some i =>
        let m := i + 1
        match skipWs1 (r2.drop 3) with
        | none => .error .valueError
        | some r4 =>
          let p2 := r4.span Char.isDigit
          if p2.1.length = 4 ∧ p2.2 = [] then
            match digitsVal p2.1 with
            | some y =>
              if 1 ≤ y ∧ d ≤ daysInMonth y m then .ok (y, m, d) else .error .valueError
            | none => .error .valueError
          else .error .valueError

/-- `datetime.strptime(s, "%Y-%m-%d")` followed by the `datetime`
constructor checks. -/
def strptimeYMD (s : String) : Except PyExc (Nat × Nat × Nat) :=
  let cs := s.toList
  let p1 := cs.span Char.isDigit
  if p1.1.length = 4 then
    match digitsVal p1.1 with
    | none => .error .valueError
    | some y =>
      match p1.2 with
      | '-' :: r2 =>
        let p2 := r2.span Char.isDigit
        match monthFromRun p2.1 with
        | none => .error .valueError
        | some m =>
          match p2.2 with
          | '-' :: r4 =>
            let p3 := r4.span Char.isDigit
            match dayFromRun p3.1 with
            | none => .error .valueError
            | some d =>
              if p3.2 = [] ∧ 1 ≤ y ∧ d ≤ daysInMonth y m then .ok (y, m, d)
              else .error .valueError
          | _ => .error .valueError
      | _ => .error .valueError
  else .error .valueError

/-- Zero-pad a number to a given width. -/
def padNum (n w : Nat) : String :=
  let s := toString n
  String.mk (List.replicate (w - s.length) '0') ++ s

/-- `date(y, m, d).isoformat()`. -/
def isoOfYMD (t : Nat × Nat × Nat) : String :=
  padNum t.1 4 ++ "-" ++ padNum t.2.1 2 ++ "-" ++ padNum t.2.2 2

/-! ## Raw OMDb responses and the Response Normalizer -/

/-- A raw OMDb response dictionary as consumed by clean_omdb_response.
`extraKeys` records whether the dictionary holds keys beyond the scalar
fields read by the sources, so Python truthiness of the dictionary is
representable. -/
structure OmdbRaw where
  Response : Option String := none
  Error : Option String := none
  imdbID : Option String := none
  Director : Option String := none
  Plot : Option String := none
  BoxOffice : Option String := none
  Released : Option String := none
  Runtime : Option String := none
  extraKeys : Bool := false
deriving DecidableEq, Repr

/-- Python truthiness of the response dictionary (`if not r:`): true iff
some key is present. -/
def OmdbRaw.truthy (r : OmdbRaw) : Bool :=
  r.Response.isSome || r.Error.isSome || r.imdbID.isSome || r.Director.isSome ||
  r.Plot.isSome || r.BoxOffice.isSome || r.Released.isSome || r.Runtime.isSome ||
  r.extraKeys

/-- The canonical partial-record produced by clean_omdb_response. -/
structure CleanRec where
  imdb_id : Option String := none
  director : Option String := none
  plot : Option String := none
  box_office : Option String := none
  released : Option String := none
  runtime_minutes : Option Int := none
deriving DecidableEq, Repr

/-- `x if x and x != "N/A" else None`: the not-available sentinel check
applied to director, plot and box office. -/
def naFilter (o : Option String) : Option String :=
  match o with
  | some s => if s.isEmpty || s = "N/A" then none else some s
  | none => none

/-- The body of the runtime try-block:
`int(runtime.split()[0])`, which can raise IndexError or ValueError. -/
def runtimeBlockE (s : String) : Except PyExc Int :=
  match (pyTokens s).head? with
  | some t => pyIntE t
  | none => .error .indexError

/-- Runtime extraction of clean_omdb_response: guarded by
`if runtime and "min" in runtime`, parse failure degrades to None. -/
def parseRuntimeMin (o : Option String) : Option Int :=
  match o with
  | some s =>
    if !s.isEmpty && strContainsSub s "min" then (runtimeBlockE s).toOption
    else none
  | none => none

/-- Release-date extraction of clean_omdb_response: guarded by
`if released and released != "N/A"`, then the two formats are tried in
order inside try-blocks; failure of both degrades to None. -/
def parseReleased (o : Option String) : Option String :=
  match o with
  | some s =>
    if !s.isEmpty && s ≠ "N/A" then
      match strptimeDMY s with
      | .ok t => some (isoOfYMD t)
      | .error _ =>
        match strptimeYMD s with
        | .ok t => some (isoOfYMD t)
        | .error _ => none
    else none
  | none => none

/-- clean_omdb_response (identical in etl.py and enrich_missing.py):
raw response to canonical partial-record, or None on failure/empty input.
Note that imdbID is copied verbatim with no sentinel check. -/
def clean_omdb_response (r : OmdbRaw) : Option CleanRec :=
  if !r.truthy || r.Response = some "False" then none
  else
    some {
      imdb_id := r.imdbID
      director := naFilter r.Director
      plot := naFilter r.Plot
      box_office := naFilter r.BoxOffice
      released := parseReleased r.Released
      runtime_minutes := parseRuntimeMin r.Runtime }

/-! ## Raw documents with arbitrarily-typed scalar fields

The cache file is arbitrary JSON and query_omdb returns a cached document
untouched, so clean_omdb_response can also receive documents whose scalar
fields are not strings — a number, for instance. PyVal renders such
scalars (list- or object-valued fields behave like numbers at every
operation the sources apply to a scalar field: truthy, unequal to any
string, not iterable over characters). -/

/-- A JSON scalar as json.loads of the cache file can produce it:
absent/None, a string, or a number. -/
inductive PyVal where
  | vNone
  | vStr (s : String)
  | vInt (n : Int)
deriving DecidableEq, Repr

/-- Python truthiness of such a scalar. -/
def pyTruthyV : PyVal → Bool
  | .vNone => false
  | .vStr s => !s.isEmpty
  | .vInt n => decide (n ≠ 0)

/-- Is the key present (its value not None)? -/
def PyVal.isPresent : PyVal → Bool
  | .vNone => false
  | _ => true

/-- Is the scalar a number? -/
def PyVal.isInt : PyVal → Bool
  | .vInt _ => true
  | _ => false

/-- Python `v == t` against a string literal: false for None and numbers. -/
def pyEqStrV (v : PyVal) (t : String) : Bool :=
  match v with
  | .vStr s => s = t
  | _ => false

/-- A raw response document with arbitrarily-typed scalar fields. -/
structure OmdbRawV where
  Response : PyVal := .vNone
  Error : PyVal := .vNone
  imdbID : PyVal := .vNone
  Director : PyVal := .vNone
  Plot : PyVal := .vNone
  BoxOffice : PyVal := .vNone
  Released : PyVal := .vNone
  Runtime : PyVal := .vNone
  extraKeys : Bool := false
deriving DecidableEq, Repr

/-- Python truthiness of the document (`if not r:`). -/
def OmdbRawV.truthy (r : OmdbRawV) : Bool :=
  r.Response.isPresent || r.Error.isPresent || r.imdbID.isPresent ||
  r.Director.isPresent || r.Plot.isPresent || r.BoxOffice.isPresent ||
  r.Released.isPresent || r.Runtime.isPresent || r.extraKeys

/-- `x if x and x != "N/A" else None` over such scalars. -/
def naFilterV (v : PyVal) : PyVal :=
  if pyTruthyV v && !(pyEqStrV v "N/A") then v else .vNone

/-- `datetime.strptime(v, "%d %b %Y")`: raises TypeError on a
non-string argument. -/
def strptimeDMYV : PyVal → Except PyExc (Nat × Nat × Nat)
  | .vStr s => strptimeDMY s
  | _ => .error .typeError

/-- `datetime.strptime(v, "%Y-%m-%d")` likewise. -/
def strptimeYMDV : PyVal → Except PyExc (Nat × Nat × Nat)
  | .vStr s => strptimeYMD s
  | _ => .error .typeError

/-- The release-date block over such a scalar: the guard
`if released and released != "N/A"` never raises, and the strptime calls
sit inside try-blocks whose bare excepts catch the TypeError too. -/
def releasedStepV (v : PyVal) : Option String :=
  if pyTruthyV v && !(pyEqStrV v "N/A") then
    match strptimeDMYV v with
    | .ok t => some (isoOfYMD t)
    | .error _ =>
      match strptimeYMDV v with
      | .ok t => some (isoOfYMD t)
      | .error _ => none
  else none

/-- The runtime block over such a scalar. The membership test
`"min" in runtime` sits OUTSIDE the try of the sources, so on a truthy
non-string value it raises an uncaught TypeError; only the
`int(runtime.split()[0])` conversion is guarded by the bare except. -/
def runtimeStepV (v : PyVal) : Except PyExc (Option Int) :=
  if pyTruthyV v then
    match v with
    | .vStr s =>
      if strContainsSub s "min" then .ok ((runtimeBlockE s).toOption)
      else .ok none
    | _ => .error .typeError
  else .ok none

/-- The canonical partial-record over such documents: imdb_id, director,
plot and box office are stored as the (possibly non-string) values the
source expressions produce; released and runtime are always a string /
an integer or None. -/
structure CleanRecV where
  imdb_id : PyVal := .vNone
  director : PyVal := .vNone
  plot : PyVal := .vNone
  box_office : PyVal := .vNone
  released : Option String := none
  runtime_minutes : Option Int := none
deriving DecidableEq, Repr

/-- clean_omdb_response over arbitrarily-typed documents, exceptions made
explicit: `.error` is an exception escaping the function. -/
def cleanOmdbResponseV (r : OmdbRawV) : Except PyExc (Option CleanRecV) :=
  if !r.truthy || pyEqStrV r.Response "False" then .ok none
  else
    match runtimeStepV r.Runtime with
    | .error e => .error e
    | .ok runtime_minutes =>
      .ok (some {
        imdb_id := r.imdbID
        director := naFilterV r.Director
        plot := naFilterV r.Plot
        box_office := naFilterV r.BoxOffice
        released := releasedStepV r.Released
        runtime_minutes := runtime_minutes })

/-- A string-or-absent field viewed as such a scalar. -/
def pyValOfOpt : Option String → PyVal
  | some s => .vStr s
  | none => .vNone

/-- A string-typed document viewed as an arbitrarily-typed one. -/
def omdbRawV (r : OmdbRaw) : OmdbRawV :=
  { Response := pyValOfOpt r.Response
    Error := pyValOfOpt r.Error
    imdbID := pyValOfOpt r.imdbID
    Director := pyValOfOpt r.Director
    Plot := pyValOfOpt r.Plot
    BoxOffice := pyValOfOpt r.BoxOffice
    Released := pyValOfOpt r.Released
    Runtime := pyValOfOpt r.Runtime
    extraKeys := r.extraKeys }

/-- A string-typed canonical record viewed over the richer domain. -/
def cleanRecV (c : CleanRec) : CleanRecV :=
  { imdb_id := pyValOfOpt c.imdb_id
    director := pyValOfOpt c.director
    plot := pyValOfOpt c.plot
    box_office := pyValOfOpt c.box_office
    released := c.released
    runtime_minutes := c.runtime_minutes }

/-! ## External Metadata Client -/

/-- A network request issued by the client: direct title lookup (`t=`),
fuzzy search (`s=`), or lookup by external id (`i=`). -/
inductive Req where
  | byTitle (title : String) (year : Option Int)
  | searchTitle (title : String) (year : Option Int)
  | byId (imdb : String)
deriving DecidableEq, Repr

/-- One entry of a search response. -/
structure SearchHit where
  imdbID : Option String := none
deriving DecidableEq, Repr

/-- A raw search response (`s=` query). An absent or empty result list are
identified (both are falsy in the source). -/
structure SearchResp where
  Response : Option String := none
  results : List SearchHit := []
deriving DecidableEq, Repr

/-- The network oracle: what the remote API (or the error path of `_call`,
which folds network failures and non-JSON bodies into failure
dictionaries) returns for each request of this run. -/
structure Net where
  lookup : Req → OmdbRaw
  search : Req → SearchResp

/-- The run-scoped mutable state of the client: the in-memory cache
mapping and the process-wide rate-limited flag. -/
structure ClientState where
  cache : List (String × OmdbRaw) := []
  rateLimited : Bool := false
deriving DecidableEq, Repr

/-- Dictionary store `cache[key] = v`. -/
def cachePut (c : List (String × OmdbRaw)) (k : String) (v : OmdbRaw) :
    List (String × OmdbRaw) :=
  (k, v) :: c

/-- The synthetic failure recorded when the fast flag or the rate-limited
flag short-circuits a call. -/
def skippedResp : OmdbRaw :=
  { Response := some "False", Error := some "fast-mode or rate-limited: skipped" }

/-- The synthetic failure recorded when no API key is configured. -/
def noKeyResp : OmdbRaw :=
  { Response := some "False", Error := some "No API key set" }

/-- `"y": year` is attached only under `if year:` (so 0 and None are both
dropped). -/
def yearParam (year : Option Int) : Option Int :=
  if pyIntTruthy year then year else none

/-- query_omdb from etl.py. Returns the response, the updated client
state, and the list of network requests performed. -/
def query_omdb_etl (apiKey : Option String) (net : Net) (title : String)
    (year : Option Int) (st : ClientState) (fast : Bool) :
    OmdbRaw × ClientState × List Req :=
  let key := mkKey title year
  match List.lookup key st.cache with
  | some v => (v, st, [])
  | none =>
    if fast || st.rateLimited then
      (skippedResp, { st with cache := cachePut st.cache key skippedResp }, [])
    else if !pyStrTruthy apiKey then
      (noKeyResp, { st with cache := cachePut st.cache key noKeyResp }, [])
    else
      let yp := yearParam year
      let req1 := Req.byTitle title yp
      let data := net.lookup req1
      let err := pyLower (data.Error.getD "")
      if data.Response = some "True" then
        (data, { st with cache := cachePut st.cache key data }, [req1])
      else if strContainsSub err "limit" || strContainsSub err "invalid api key" then
        let v : OmdbRaw :=
          { Response := some "False", Error := some (data.Error.getD "rate limited/invalid key") }
        (v, { cache := cachePut st.cache key v, rateLimited := true }, [req1])
      else
        let reqS := Req.searchTitle title yp
        let sresp := net.search reqS
        if sresp.Response = some "True" then
          match sresp.results with
          | first :: _ =>
            match first.imdbID with
            | some imdb =>
              if !imdb.isEmpty then
                let reqI := Req.byId imdb
                let detail := net.lookup reqI
                if detail.Response = some "True" then
                  (detail, { st with cache := cachePut st.cache key detail }, [req1, reqS, reqI])
                else
                  (data, { st with cache := cachePut st.cache key data }, [req1, reqS, reqI])
              else
                (data, { st with cache := cachePut st.cache key data }, [req1, reqS])
            | none =>
              (data, { st with cache := cachePut st.cache key data }, [req1, reqS])
          | [] =>
            (data, { st with cache := cachePut st.cache key data }, [req1, reqS])
        else
          (data, { st with cache := cachePut st.cache key data }, [req1, reqS])

/-- query_omdb from enrich_missing.py: no search fallback, and a wider
marker list for rate-limit detection. -/
def query_omdb_enrich (apiKey : Option String) (net : Net) (title : String)
    (year : Option Int) (st : ClientState) (fast : Bool) :
    OmdbRaw × ClientState × List Req :=
  let key := mkKey title year
  match List.lookup key st.cache with
  | some v => (v, st, [])
  | none =>
    if fast || st.rateLimited then
      (skippedResp, { st with cache := cachePut st.cache key skippedResp }, [])
    else if !pyStrTruthy apiKey then
      (noKeyResp, { st with cache := cachePut st.cache key noKeyResp }, [])
    else
      let req1 := Req.byTitle title (yearParam year)
      let data := net.lookup req1
      let err := pyLower (data.Error.getD "")
      if strContainsSub err "request limit" || strContainsSub err "limit reached" ||
          strContainsSub err "invalid api key" then
        let v : OmdbRaw :=
          { Response := some "False", Error := some (data.Error.getD "rate limited/invalid key") }
        (v, { cache := cachePut st.cache key v, rateLimited := true }, [req1])
      else
        (data, { st with cache := cachePut st.cache key data }, [req1])

/-- A sequence of client calls through the etl.py client, threading the
run-scoped state; returns per-call (response, requests) and final state. -/
def runCallsEtl (apiKey : Option String) (net : Net) (fast : Bool) :
    List (String × Option Int) → ClientState →
    List (OmdbRaw × List Req) × ClientState
  | [], st => ([], st)
  | (t, y) :: rest, st =>
    let q := query_omdb_etl apiKey net t y st fast
    let r := runCallsEtl apiKey net fast rest q.2.1
    ((q.1, q.2.2) :: r.1, r.2)

/-- A sequence of client calls through the enrich_missing.py client. -/
def runCallsEnrich (apiKey : Option String) (net : Net) (fast : Bool) :
    List (String × Option Int) → ClientState →
    List (OmdbRaw × List Req) × ClientState
  | [], st => ([], st)
  | (t, y) :: rest, st =>
    let q := query_omdb_enrich apiKey net t y st fast
    let r := runCallsEnrich apiKey net fast rest q.2.1
    ((q.1, q.2.2) :: r.1, r.2)

/-! ## Persistent store and the Upsert Engines -/

/-- One row of the movies table. -/
structure MovieRow where
  id : Int
  title : String := ""
  year : Option Int := none
  imdb_id : Option String := none
  director : Option String := none
  plot : Option String := none
  box_office : Option String := none
  released : Option String := none
  runtime_minutes : Option Int := none
deriving DecidableEq, Repr

/-- The movies table. -/
abbrev Store := List MovieRow

/-- `SELECT ... WHERE id = mid` (first matching row). -/
def movieLookup (s : Store) (mid : Int) : Option MovieRow :=
  s.find? (fun r => decide (r.id = mid))

/-- The store is well formed: distinct rows have distinct primary keys and
distinct non-null external ids (the schema constraints). -/
def StoreWf (s : Store) : Prop :=
  s.Pairwise (fun a b => a.id ≠ b.id ∧ (a.imdb_id.isSome → a.imdb_id ≠ b.imdb_id))

instance (s : Store) : Decidable (StoreWf s) := by
  unfold StoreWf
  infer_instance

/-- An IntegrityError surfaced by the store, carrying the message text the
handlers inspect. -/
structure IntegrityErr where
  msg : String
deriving DecidableEq, Repr

instance {ε α : Type _} [DecidableEq ε] [DecidableEq α] : DecidableEq (Except ε α) :=
  fun x y =>
    match x, y with
    | .ok a, .ok b => decidable_of_iff (a = b) (by simp)
    | .ok _, .error _ => isFalse (by simp)
    | .error _, .ok _ => isFalse (by simp)
    | .error a, .error b => decidable_of_iff (a = b) (by simp)

/-- The parameter dictionary bound into upsert_sql in etl.py main. -/
structure UpsertParams where
  id : Int
  title : String := ""
  year : Option Int := none
  imdb_id : Option String := none
  director : Option String := none
  plot : Option String := none
  box_office : Option String := none
  released : Option String := none
  runtime : Option Int := none
deriving DecidableEq, Repr

/-- The `ON CONFLICT(id) DO UPDATE` arm of upsert_sql: title and year are
overwritten, metadata fields coalesce forward. -/
def upsertResultRow (old : MovieRow) (p : UpsertParams) : MovieRow :=
  { id := old.id
    title := p.title
    year := p.year
    imdb_id := p.imdb_id.or old.imdb_id
    director := p.director.or old.director
    plot := p.plot.or old.plot
    box_office := p.box_office.or old.box_office
    released := p.released.or old.released
    runtime_minutes := p.runtime.or old.runtime_minutes }

/-- The fresh row inserted by upsert_sql when the id is new. -/
def newRowOfParams (p : UpsertParams) : MovieRow :=
  { id := p.id, title := p.title, year := p.year, imdb_id := p.imdb_id,
    director := p.director, plot := p.plot, box_office := p.box_office,
    released := p.released, runtime_minutes := p.runtime }

/-- The imdb_id value the movies.imdb_id column would take after
upsert_sql runs. -/
def upsertNewImdb (s : Store) (p : UpsertParams) : Option String :=
  match movieLookup s p.id with
  | some old => p.imdb_id.or old.imdb_id
  | none => p.imdb_id

/-- Does running upsert_sql violate the UNIQUE constraint on
movies.imdb_id? -/
def upsertViolation (s : Store) (p : UpsertParams) : Bool :=
  match upsertNewImdb s p with
  | some x => s.any (fun r => decide (r.id ≠ p.id) && decide (r.imdb_id = some x))
  | none => false

/-- The pure state effect of upsert_sql. -/
def upsertApply (s : Store) (p : UpsertParams) : Store :=
  match movieLookup s p.id with
  | some _ => s.map (fun r => if r.id = p.id then upsertResultRow r p else r)
  | none => s ++ [newRowOfParams p]

/-- `conn.execute(upsert_sql, params)`: raises IntegrityError on a
duplicate external id, otherwise updates the store. -/
def execUpsert (s : Store) (p : UpsertParams) : Except IntegrityErr Store :=
  if upsertViolation s p then .error { msg := "UNIQUE constraint failed: movies.imdb_id" }
  else .ok (upsertApply s p)

/-- The `ON CONFLICT(id) DO UPDATE` arm of fallback_sql: as upsertResultRow
but imdb_id is not in the SET clause, so the stored value is kept. -/
def fallbackResultRow (old : MovieRow) (p : UpsertParams) : MovieRow :=
  { id := old.id
    title := p.title
    year := p.year
    imdb_id := old.imdb_id
    director := p.director.or old.director
    plot := p.plot.or old.plot
    box_office := p.box_office.or old.box_office
    released := p.released.or old.released
    runtime_minutes := p.runtime.or old.runtime_minutes }

/-- The pure state effect of fallback_sql run with params_no_imdb
(imdb_id bound to None). -/
def fallbackApply (s : Store) (p : UpsertParams) : Store :=
  match movieLookup s p.id with
  | some _ => s.map (fun r => if r.id = p.id then fallbackResultRow r p else r)
  | none => s ++ [newRowOfParams { p with imdb_id := none }]

/-- The imdb_id value of the affected row after fallback_sql. -/
def fallbackNewImdb (s : Store) (p : UpsertParams) : Option String :=
  match movieLookup s p.id with
  | some old => old.imdb_id
  | none => none

/-- Does running fallback_sql violate the UNIQUE constraint? (Never, on a
well-formed store.) -/
def fallbackViolation (s : Store) (p : UpsertParams) : Bool :=
  match fallbackNewImdb s p with
  | some x => s.any (fun r => decide (r.id ≠ p.id) && decide (r.imdb_id = some x))
  | none => false

/-- `conn.execute(fallback_sql, params_no_imdb)`. -/
def execFallback (s : Store) (p : UpsertParams) : Except IntegrityErr Store :=
  if fallbackViolation s p then .error { msg := "UNIQUE constraint failed: movies.imdb_id" }
  else .ok (fallbackApply s p)

/-- The try/except IntegrityError block of etl.py main: on a failure whose
message names imdb_id, rerun with the external id forced to absent;
any other integrity failure is re-raised. -/
def etlUpsertWithRetry (s : Store) (p : UpsertParams) : Except IntegrityErr Store :=
  match execUpsert s p with
  | .ok s2 => .ok s2
  | .error e =>
    let m := pyLower e.msg
    if strContainsSub m "imdb_id" ||
        strContainsSub m "unique constraint failed: movies.imdb_id" then
      execFallback s p
    else .error e

/-- update_movie from enrich_missing.py: update only the fields that are
present (Python-truthy; runtime via `is not None`); execute no SQL and
return False when no field qualifies. -/
def update_movie (s : Store) (movie_id : Int) (d : CleanRec) :
    Except IntegrityErr (Store × Bool) :=
  let setImdb := pyStrTruthy d.imdb_id
  let setDirector := pyStrTruthy d.director
  let setPlot := pyStrTruthy d.plot
  let setBox := pyStrTruthy d.box_office
  let setReleased := pyStrTruthy d.released
  let setRuntime := d.runtime_minutes.isSome
  if !(setImdb || setDirector || setPlot || setBox || setReleased || setRuntime) then
    .ok (s, false)
  else
    match movieLookup s movie_id with
    | none => .ok (s, true)
    | some old =>
      let newRow : MovieRow :=
        { old with
          imdb_id := if setImdb then d.imdb_id else old.imdb_id
          director := if setDirector then d.director else old.director
          plot := if setPlot then d.plot else old.plot
          box_office := if setBox then d.box_office else old.box_office
          released := if setReleased then d.released else old.released
          runtime_minutes := if setRuntime then d.runtime_minutes else old.runtime_minutes }
      if setImdb &&
          (match d.imdb_id with
           | some x => s.any (fun r => decide (r.id ≠ movie_id) && decide (r.imdb_id = some x))
           | none => false) then
        .error { msg := "UNIQUE constraint failed: movies.imdb_id" }
      else
        .ok (s.map (fun r => if r.id = movie_id then newRow else r), true)

/-- The try/except sqlite3.IntegrityError block of enrich_missing.py main
around one update: returns the store plus the increments applied to the
enriched and skipped counters. -/
def enrichHandleUpdate (s : Store) (movie_id : Int) (omdb : CleanRec) :
    Except IntegrityErr (Store × Nat × Nat) :=
  match update_movie s movie_id omdb with
  | .ok (s2, b) => .ok (s2, if b then 1 else 0, if b then 0 else 1)
  | .error _ =>
    if pyStrTruthy omdb.director || pyStrTruthy omdb.plot || pyStrTruthy omdb.box_office ||
        pyStrTruthy omdb.released || omdb.runtime_minutes.isSome then
      match update_movie s movie_id { omdb with imdb_id := none } with
      | .ok (s2, _) => .ok (s2, 1, 0)
      | .error e2 => .error e2
    else .ok (s, 0, 0)

/-! ## Batch Orchestrator: full-load mode (etl.py main) -/

/-- parse_title_and_year: the regex `^(.*)\s+\((\d4)\)$` (a greedy title,
one or more whitespace characters, then a parenthesised 4-digit year at
the very end), with the title group stripped; on no match the title is
returned unchanged and the year is absent. -/
def parse_title_and_year (s : String) : String × Option Int :=
  let cs := s.toList
  let n := cs.length
  if 7 ≤ n then
    let tail := cs.drop (n - 7)
    match tail with
    | [w, lp, d1, d2, d3, d4, rp] =>
      if w.isWhitespace && lp = '(' && d1.isDigit && d2.isDigit && d3.isDigit &&
          d4.isDigit && rp = ')' then
        (pyStrip (String.mk (cs.take (n - 7))),
         some ((((d1.toNat - 48) * 10 + (d2.toNat - 48)) * 10 + (d3.toNat - 48)) * 10 +
           (d4.toNat - 48) : Nat))
      else (s, none)
    | _ => (s, none)
  else (s, none)

/-- One row of the movies input file (the genre column is consumed only by
the genre tables, which no claim concerns; it is not modelled). -/
structure MovieInput where
  movieId : Int
  title : String
deriving DecidableEq, Repr

/-- One row of the ratings input file / ratings table. -/
structure RatingRow where
  userId : Int
  movieId : Int
  rating : Option Rat := none
  timestamp : Option Int := none
deriving DecidableEq, Repr

/-- Events observable during a run: a cache flush to durable storage, or a
network request. -/
inductive Ev where
  | flush
  | netCall (r : Req)
deriving DecidableEq, Repr

/-- Number of cache flushes in an event trace. -/
def flushCount (evs : List Ev) : Nat :=
  evs.countP (fun e => decide (e = Ev.flush))

/-- State threaded through the full-load movie loop. -/
structure EtlState where
  client : ClientState
  store : Store
deriving DecidableEq, Repr

/-- One iteration of the movie loop of etl.py main: parse the embedded
year, query the client, normalize, upsert with the uniqueness retry.
An unhandled IntegrityError aborts the run. -/
def etlMovieRow (apiKey : Option String) (net : Net) (fast : Bool)
    (st : EtlState) (row : MovieInput) : Except IntegrityErr (EtlState × List Ev) :=
  let ty := parse_title_and_year row.title
  let q := query_omdb_etl apiKey net ty.1 ty.2 st.client fast
  let omdb := if q.1.truthy then clean_omdb_response q.1 else none
  let p : UpsertParams :=
    { id := row.movieId
      title := ty.1
      year := ty.2
      imdb_id := omdb.bind (fun o => o.imdb_id)
      director := omdb.bind (fun o => o.director)
      plot := omdb.bind (fun o => o.plot)
      box_office := omdb.bind (fun o => o.box_office)
      released := omdb.bind (fun o => o.released)
      runtime := omdb.bind (fun o => o.runtime_minutes) }
  match etlUpsertWithRetry st.store p with
  | .ok s2 => .ok ({ client := q.2.1, store := s2 }, q.2.2.map Ev.netCall)
  | .error e => .error e

/-- The movie loop of etl.py main over all (possibly limit-capped) rows. -/
def etlRowsLoop (apiKey : Option String) (net : Net) (fast : Bool) :
    List MovieInput → EtlState → Except IntegrityErr (EtlState × List Ev)
  | [], st => .ok (st, [])
  | row :: rest, st =>
    match etlMovieRow apiKey net fast st row with
    | .error e => .error e
    | .ok (st2, evs) =>
      match etlRowsLoop apiKey net fast rest st2 with
      | .error e => .error e
      | .ok (st3, evs2) => .ok (st3, evs ++ evs2)

/-- The metadata phase of etl.py main: the movie loop followed by the
single save_cache call. -/
def etlMoviePhase (apiKey : Option String) (net : Net) (fast : Bool)
    (rows : List MovieInput) (st : EtlState) : Except IntegrityErr (EtlState × List Ev) :=
  match etlRowsLoop apiKey net fast rows st with
  | .error e => .error e
  | .ok (st2, evs) => .ok (st2, evs ++ [Ev.flush])

/-- The ratings phase of etl.py main: valid ids are those already in the
store united with those of the movie rows processed this run; only rating
rows whose movie id is valid are inserted. -/
def validMovieIds (store : Store) (moviesDf : List MovieInput) : List Int :=
  store.map (fun r => r.id) ++ moviesDf.map (fun r => r.movieId)

/-- `ratings_df[ratings_df["movieId"].isin(valid_movie_ids)]`. -/
def filterRatings (store : Store) (moviesDf : List MovieInput)
    (ratings : List RatingRow) : List RatingRow :=
  ratings.filter (fun r => (validMovieIds store moviesDf).contains r.movieId)

/-- `dropped = original_ratings_count - filtered_count`, the count the
orchestrator reports. -/
def droppedRatingsCount (store : Store) (moviesDf : List MovieInput)
    (ratings : List RatingRow) : Nat :=
  ratings.length - (filterRatings store moviesDf ratings).length

/-! ## Batch Orchestrator: enrichment-only mode (enrich_missing.py) -/

/-- Count of non-null ratings of one movie id: `COUNT(r.rating)`. -/
def ratingCount (ratings : List RatingRow) (mid : Int) : Nat :=
  (ratings.filter (fun r => decide (r.movieId = mid) && r.rating.isSome)).length

/-- Does a movie id have at least one rating row (the inner JOIN)? -/
def hasRating (ratings : List RatingRow) (mid : Int) : Bool :=
  ratings.any (fun r => decide (r.movieId = mid))

/-- The descending-rating-count order of the ORDER BY clause. -/
def cntGE (ratings : List RatingRow) (a b : MovieRow) : Prop :=
  ratingCount ratings b.id ≤ ratingCount ratings a.id

instance (ratings : List RatingRow) : DecidableRel (cntGE ratings) :=
  fun a b => inferInstanceAs (Decidable (ratingCount ratings b.id ≤ ratingCount ratings a.id))

/-- fetch_candidates from enrich_missing.py: movies with at least one
rating and a missing director or external id, ordered by descending
rating count, capped at the batch size, projected to (id, title, year).
SQLite leaves the order among equal counts unspecified; the embedding
fixes it with a sort that respects the ORDER BY clause. -/
def fetch_candidates (movies : Store) (ratings : List RatingRow) (batch : Nat) :
    List (Int × String × Option Int) :=
  let grouped := movies.filter
    (fun m => hasRating ratings m.id && (m.director.isNone || m.imdb_id.isNone))
  let sorted := List.insertionSort (cntGE ratings) grouped
  (sorted.take batch).map (fun m => (m.id, m.title, m.year))

/-- State threaded through the enrichment loop. -/
structure LoopState where
  client : ClientState
  store : Store
  enriched : Nat := 0
  skipped : Nat := 0
deriving DecidableEq, Repr

/-- The cleaned client response a given enrichment iteration computes. -/
def stepCleaned (apiKey : Option String) (net : Net) (fast : Bool)
    (st : LoopState) (c : Int × String × Option Int) : Option CleanRec :=
  let q := query_omdb_enrich apiKey net c.2.1 c.2.2 st.client fast
  if q.1.truthy then clean_omdb_response q.1 else none

/-- One iteration of the enrichment loop body (after the break check):
query, normalize; on no data increment skipped and continue (note: this
path reaches the next iteration without flushing the cache); otherwise
update inside the IntegrityError handler and flush the cache. -/
def enrichStep (apiKey : Option String) (net : Net) (fast : Bool)
    (st : LoopState) (c : Int × String × Option Int) :
    Except IntegrityErr (LoopState × List Ev) :=
  let q := query_omdb_enrich apiKey net c.2.1 c.2.2 st.client fast
  let omdb := if q.1.truthy then clean_omdb_response q.1 else none
  match omdb with
  | none =>
    .ok ({ st with client := q.2.1, skipped := st.skipped + 1 }, q.2.2.map Ev.netCall)
  | some rec' =>
    match enrichHandleUpdate st.store c.1 rec' with
    | .ok (s2, de, ds) =>
      .ok ({ client := q.2.1, store := s2, enriched := st.enriched + de,
             skipped := st.skipped + ds }, q.2.2.map Ev.netCall ++ [Ev.flush])
    | .error e => .error e

/-- The enrichment loop: stop early when the rate-limited flag is set and
the run is not in fast mode. -/
def enrichLoop (apiKey : Option String) (net : Net) (fast : Bool) :
    List (Int × String × Option Int) → LoopState →
    Except IntegrityErr (LoopState × List Ev)
  | [], st => .ok (st, [])
  | c :: rest, st =>
    if st.client.rateLimited && !fast then .ok (st, [])
    else
      match enrichStep apiKey net fast st c with
      | .error e => .error e
      | .ok (st2, evs) =>
        match enrichLoop apiKey net fast rest st2 with
        | .error e => .error e
        | .ok (st3, evs2) => .ok (st3, evs ++ evs2)

/-- enrich_missing.py main after candidate selection: with no candidates
it returns at once (no flush); otherwise it runs the loop and saves the
cache once more at the end. -/
def enrichMain (apiKey : Option String) (net : Net) (fast : Bool)
    (cands : List (Int × String × Option Int)) (st : LoopState) :
    Except IntegrityErr (LoopState × List Ev) :=
  match cands with
  | [] => .ok (st, [])
  | _ :: _ =>
    match enrichLoop apiKey net fast cands st with
    | .error e => .error e
    | .ok (st2, evs) => .ok (st2, evs ++ [Ev.flush])

/-! ## Client lemmas shared by several claims -/

theorem query_etl_cacheHit (apiKey : Option String) (net : Net) (title : String)
    (year : Option Int) (st : ClientState) (fast : Bool) (v : OmdbRaw)
    (h : List.lookup (mkKey title year) st.cache = some v) :
    query_omdb_etl apiKey net title year st fast = (v, st, []) := by
  simp only [query_omdb_etl, h]

theorem query_enrich_cacheHit (apiKey : Option String) (net : Net) (title : String)
    (year : Option Int) (st : ClientState) (fast : Bool) (v : OmdbRaw)
    (h : List.lookup (mkKey title year) st.cache = some v) :
    query_omdb_enrich apiKey net title year st fast = (v, st, []) := by
  simp only [query_omdb_enrich, h]

theorem query_etl_caches (apiKey : Option String) (net : Net) (title : String)
    (year : Option Int) (st : ClientState) (fast : Bool) :
    List.lookup (mkKey title year) (query_omdb_etl apiKey net title year st fast).2.1.cache =
      some (query_omdb_etl apiKey net title year st fast).1 := by
  cases h : List.lookup (mkKey title year) st.cache with
  | some v => simp only [query_omdb_etl, h]
  | none =>
    simp only [query_omdb_etl, h]
    repeat' split
    all_goals simp [cachePut, List.lookup]

theorem query_enrich_caches (apiKey : Option String) (net : Net) (title : String)
    (year : Option Int) (st : ClientState) (fast : Bool) :
    List.lookup (mkKey title year) (query_omdb_enrich apiKey net title year st fast).2.1.cache =
      some (query_omdb_enrich apiKey net title year st fast).1 := by
  cases h : List.lookup (mkKey title year) st.cache with
  | some v => simp only [query_omdb_enrich, h]
  | none =>
    simp only [query_omdb_enrich, h]
    repeat' split
    all_goals simp [cachePut, List.lookup]

theorem query_etl_flagged (apiKey : Option String) (net : Net) (title : String)
    (year : Option Int) (st : ClientState) (fast : Bool)
    (h : st.rateLimited = true) :
    (query_omdb_etl apiKey net title year st fast).2.2 = [] ∧
    (query_omdb_etl apiKey net title year st fast).2.1.rateLimited = true ∧
    (∀ v, List.lookup (mkKey title year) st.cache = some v →
      query_omdb_etl apiKey net title year st fast = (v, st, [])) ∧
    (List.lookup (mkKey title year) st.cache = none →
      (query_omdb_etl apiKey net title year st fast).1 = skippedResp) := by
  cases hl : List.lookup (mkKey title year) st.cache with
  | some v => simp only [query_omdb_etl, hl]; simp [h]
  | none => simp only [query_omdb_etl, hl]; simp [h]

theorem query_enrich_flagged (apiKey : Option String) (net : Net) (title : String)
    (year : Option Int) (st : ClientState) (fast : Bool)
    (h : st.rateLimited = true) :
    (query_omdb_enrich apiKey net title year st fast).2.2 = [] ∧
    (query_omdb_enrich apiKey net title year st fast).2.1.rateLimited = true ∧
    (∀ v, List.lookup (mkKey title year) st.cache = some v →
      query_omdb_enrich apiKey net title year st fast = (v, st, [])) ∧
    (List.lookup (mkKey title year) st.cache = none →
      (query_omdb_enrich apiKey net title year st fast).1 = skippedResp) := by
  cases hl : List.lookup (mkKey title year) st.cache with
  | some v => simp only [query_omdb_enrich, hl]; simp [h]
  | none => simp only [query_omdb_enrich, hl]; simp [h]

/-! ## Claim C4: second call with same key and cache is cached, no network -/

/-- C4: for every (title, year) key and cache instance, a second Client
call with the same key and the cache state left by the first call returns
a value identical to the first result and performs no network call (its
request trace is empty), whatever the fast flag, API key or network of
the second call; this holds for both query_omdb variants because every
call outcome is written to the cache before returning. -/
theorem C4_second_call_cached (apiKey apiKey2 : Option String) (net net2 : Net)
    (fast fast2 : Bool) (title : String) (year : Option Int) (st : ClientState) :
    query_omdb_etl apiKey2 net2 title year
        (query_omdb_etl apiKey net title year st fast).2.1 fast2 =
      ((query_omdb_etl apiKey net title year st fast).1,
       (query_omdb_etl apiKey net title year st fast).2.1, []) ∧
    query_omdb_enrich apiKey2 net2 title year
        (query_omdb_enrich apiKey net title year st fast).2.1 fast2 =
      ((query_omdb_enrich apiKey net title year st fast).1,
       (query_omdb_enrich apiKey net title year st fast).2.1, []) :=
  ⟨query_etl_cacheHit apiKey2 net2 title year _ fast2 _
      (query_etl_caches apiKey net title year st fast),
   query_enrich_cacheHit apiKey2 net2 title year _ fast2 _
      (query_enrich_caches apiKey net title year st fast)⟩

/-! ## Claim C9: the cache check precedes the synthetic-failure checks and
synthetic failures are cached, so a cached synthetic failure poisons every
later call for that key -/

/-- C9: (1) a cache hit is returned unchanged with no network call and no
state change, regardless of the fast flag, the rate-limited flag and the
API key — in particular in a later run with networking enabled and a
valid key; (2) the synthetic skipped failure produced by the
fast-mode/rate-limited check is written to the cache; (3) so is the
missing-API-key synthetic failure. Both client variants. -/
theorem C9_cache_precedence :
    (∀ (apiKey : Option String) (net : Net) (title : String) (year : Option Int)
       (st : ClientState) (fast : Bool) (v : OmdbRaw),
      List.lookup (mkKey title year) st.cache = some v →
      query_omdb_etl apiKey net title year st fast = (v, st, []) ∧
      query_omdb_enrich apiKey net title year st fast = (v, st, [])) ∧
    (∀ (apiKey : Option String) (net : Net) (title : String) (year : Option Int)
       (st : ClientState) (fast : Bool),
      List.lookup (mkKey title year) st.cache = none →
      (fast || st.rateLimited) = true →
      query_omdb_etl apiKey net title year st fast =
        (skippedResp, { st with cache := cachePut st.cache (mkKey title year) skippedResp }, []) ∧
      query_omdb_enrich apiKey net title year st fast =
        (skippedResp, { st with cache := cachePut st.cache (mkKey title year) skippedResp }, [])) ∧
    (∀ (apiKey : Option String) (net : Net) (title : String) (year : Option Int)
       (st : ClientState) (fast : Bool),
      List.lookup (mkKey title year) st.cache = none →
      (fast || st.rateLimited) = false →
      pyStrTruthy apiKey = false →
      query_omdb_etl apiKey net title year st fast =
        (noKeyResp, { st with cache := cachePut st.cache (mkKey title year) noKeyResp }, []) ∧
      query_omdb_enrich apiKey net title year st fast =
        (noKeyResp, { st with cache := cachePut st.cache (mkKey title year) noKeyResp }, [])) := by
  refine ⟨fun apiKey net title year st fast v h => ?_,
    fun apiKey net title year st fast h hf => ?_,
    fun apiKey net title year st fast h hf hk => ?_⟩
  · exact ⟨query_etl_cacheHit apiKey net title year st fast v h,
      query_enrich_cacheHit apiKey net title year st fast v h⟩
  · constructor <;> simp only [query_omdb_etl, query_omdb_enrich, h, hf] <;> rfl
  · constructor <;> simp only [query_omdb_etl, query_omdb_enrich, h, hf, hk] <;> simp

/-- A concrete state for the C9 witness: the key `A||None` is cached with
the synthetic skipped failure. -/
def c9state : ClientState :=
  { cache := [(mkKey "A" none, skippedResp)], rateLimited := false }

/-- A concrete network oracle for the C9 witness (a successful response,
to show the cache really is consulted first). -/
def c9net : Net :=
  { lookup := fun _ => { Response := some "True", imdbID := some "tt9" }
    search := fun _ => { Response := some "False" } }

/-- Witness for C9: all three conjuncts applied at concrete inputs. -/
theorem C9_cache_precedence_witness :
    (List.lookup (mkKey "A" none) c9state.cache = some skippedResp ∧
      query_omdb_etl (some "k") c9net "A" none c9state false = (skippedResp, c9state, []) ∧
      query_omdb_enrich (some "k") c9net "A" none c9state false = (skippedResp, c9state, [])) ∧
    (query_omdb_etl (some "k") c9net "B" none c9state true =
        (skippedResp, { c9state with
          cache := cachePut c9state.cache (mkKey "B" none) skippedResp }, []) ∧
      query_omdb_enrich (some "k") c9net "B" none c9state true =
        (skippedResp, { c9state with
          cache := cachePut c9state.cache (mkKey "B" none) skippedResp }, [])) ∧
    (query_omdb_etl none c9net "B" none c9state false =
        (noKeyResp, { c9state with
          cache := cachePut c9state.cache (mkKey "B" none) noKeyResp }, []) ∧
      query_omdb_enrich none c9net "B" none c9state false =
        (noKeyResp, { c9state with
          cache := cachePut c9state.cache (mkKey "B" none) noKeyResp }, [])) :=
  ⟨⟨by decide, C9_cache_precedence.1 (some "k") c9net "A" none c9state false skippedResp (by decide)⟩,
   C9_cache_precedence.2.1 (some "k") c9net "B" none c9state true (by decide) (by decide),
   C9_cache_precedence.2.2 none c9net "B" none c9state false (by decide) (by decide) (by decide)⟩

/-! ## Claim C2: rate-limit detection and degraded mode -/

theorem runCallsEtl_flagged (apiKey : Option String) (net : Net) (fast : Bool)
    (calls : List (String × Option Int)) :
    ∀ st : ClientState, st.rateLimited = true →
      (∀ p ∈ (runCallsEtl apiKey net fast calls st).1, p.2 = ([] : List Req)) ∧
      (runCallsEtl apiKey net fast calls st).2.rateLimited = true := by
  induction calls with
  | nil => intro st h; simp only [runCallsEtl]; exact ⟨fun p hp => absurd hp (List.not_mem_nil p), h⟩
  | cons c rest ih =>
    intro st h
    obtain ⟨t, y⟩ := c
    have hq := query_etl_flagged apiKey net t y st fast h
    simp only [runCallsEtl]
    refine ⟨?_, (ih _ hq.2.1).2⟩
    intro p hp
    rcases List.mem_cons.mp hp with rfl | hp2
    · exact hq.1
    · exact (ih _ hq.2.1).1 p hp2

theorem runCallsEnrich_flagged (apiKey : Option String) (net : Net) (fast : Bool)
    (calls : List (String × Option Int)) :
    ∀ st : ClientState, st.rateLimited = true →
      (∀ p ∈ (runCallsEnrich apiKey net fast calls st).1, p.2 = ([] : List Req)) ∧
      (runCallsEnrich apiKey net fast calls st).2.rateLimited = true := by
  induction calls with
  | nil => intro st h; simp only [runCallsEnrich]; exact ⟨fun p hp => absurd hp (List.not_mem_nil p), h⟩
  | cons c rest ih =>
    intro st h
    obtain ⟨t, y⟩ := c
    have hq := query_enrich_flagged apiKey net t y st fast h
    simp only [runCallsEnrich]
    refine ⟨?_, (ih _ hq.2.1).2⟩
    intro p hp
    rcases List.mem_cons.mp hp with rfl | hp2
    · exact hq.1
    · exact (ih _ hq.2.1).1 p hp2

/-- C2 (amended): (1)/(2) once a lookup whose key is not cached reaches
the network and its error text matches a rate-limit or invalid-credential
marker (case-insensitive substring), the client sets the process-wide
rate-limited flag — in etl.py only when the response is not a success, in
enrich_missing.py unconditionally on a marker match; (3) with the flag
set, a call performs no network access, leaves the flag set, and returns
the synthetic skipped failure when its key is uncached, or the cached
value when it is cached; (4) hence over any sequence of subsequent calls
in the same run, no network access is ever attempted again and the flag
is never cleared. -/
theorem C2_rate_limit_degrade :
    (∀ (apiKey : Option String) (net : Net) (title : String) (year : Option Int)
       (st : ClientState),
      List.lookup (mkKey title year) st.cache = none →
      st.rateLimited = false →
      pyStrTruthy apiKey = true →
      (net.lookup (Req.byTitle title (yearParam year))).Response ≠ some "True" →
      (strContainsSub
          (pyLower ((net.lookup (Req.byTitle title (yearParam year))).Error.getD "")) "limit" ||
        strContainsSub
          (pyLower ((net.lookup (Req.byTitle title (yearParam year))).Error.getD ""))
          "invalid api key") = true →
      (query_omdb_etl apiKey net title year st false).2.1.rateLimited = true) ∧
    (∀ (apiKey : Option String) (net : Net) (title : String) (year : Option Int)
       (st : ClientState),
      List.lookup (mkKey title year) st.cache = none →
      st.rateLimited = false →
      pyStrTruthy apiKey = true →
      (strContainsSub
          (pyLower ((net.lookup (Req.byTitle title (yearParam year))).Error.getD ""))
          "request limit" ||
        strContainsSub
          (pyLower ((net.lookup (Req.byTitle title (yearParam year))).Error.getD ""))
          "limit reached" ||
        strContainsSub
          (pyLower ((net.lookup (Req.byTitle title (yearParam year))).Error.getD ""))
          "invalid api key") = true →
      (query_omdb_enrich apiKey net title year st false).2.1.rateLimited = true) ∧
    (∀ (apiKey : Option String) (net : Net) (title : String) (year : Option Int)
       (st : ClientState) (fast : Bool), st.rateLimited = true →
      ((query_omdb_etl apiKey net title year st fast).2.2 = [] ∧
       (query_omdb_etl apiKey net title year st fast).2.1.rateLimited = true ∧
       (List.lookup (mkKey title year) st.cache = none →
         (query_omdb_etl apiKey net title year st fast).1 = skippedResp) ∧
       (∀ v, List.lookup (mkKey title year) st.cache = some v →
         query_omdb_etl apiKey net title year st fast = (v, st, []))) ∧
      ((query_omdb_enrich apiKey net title year st fast).2.2 = [] ∧
       (query_omdb_enrich apiKey net title year st fast).2.1.rateLimited = true ∧
       (List.lookup (mkKey title year) st.cache = none →
         (query_omdb_enrich apiKey net title year st fast).1 = skippedResp) ∧
       (∀ v, List.lookup (mkKey title year) st.cache = some v →
         query_omdb_enrich apiKey net title year st fast = (v, st, [])))) ∧
    (∀ (apiKey : Option String) (net : Net) (fast : Bool)
       (calls : List (String × Option Int)) (st : ClientState),
      st.rateLimited = true →
      (∀ p ∈ (runCallsEtl apiKey net fast calls st).1, p.2 = ([] : List Req)) ∧
      (runCallsEtl apiKey net fast calls st).2.rateLimited = true ∧
      (∀ p ∈ (runCallsEnrich apiKey net fast calls st).1, p.2 = ([] : List Req)) ∧
      (runCallsEnrich apiKey net fast calls st).2.rateLimited = true) := by
  refine ⟨?_, ?_, ?_, ?_⟩
  · intro apiKey net title year st hl hr hk hresp hm
    simp only [query_omdb_etl, hl, hr, hk]
    simp only [Bool.or_false, Bool.not_true, Bool.false_eq_true, if_false]
    rw [if_neg hresp, if_pos hm]
  · intro apiKey net title year st hl hr hk hm
    simp only [query_omdb_enrich, hl, hr, hk]
    simp only [Bool.or_false, Bool.not_true, Bool.false_eq_true, if_false]
    rw [if_pos hm]
  · intro apiKey net title year st fast h
    have he := query_etl_flagged apiKey net title year st fast h
    have hn := query_enrich_flagged apiKey net title year st fast h
    exact ⟨⟨he.1, he.2.1, he.2.2.2, he.2.2.1⟩, ⟨hn.1, hn.2.1, hn.2.2.2, hn.2.2.1⟩⟩
  · intro apiKey net fast calls st h
    have he := runCallsEtl_flagged apiKey net fast calls st h
    have hn := runCallsEnrich_flagged apiKey net fast calls st h
    exact ⟨he.1, he.2, hn.1, hn.2⟩

/-- A successful response for the C2 scenario. -/
def c2success : OmdbRaw :=
  { Response := some "True", imdbID := some "tt2", Director := some "D2" }

/-- A rate-limited error response for the C2 scenario. -/
def c2errResp : OmdbRaw :=
  { Response := some "False", Error := some "Request limit reached!" }

/-- Network oracle for the C2 scenario: title A succeeds, everything else
reports a request-limit error. -/
def c2net : Net :=
  { lookup := fun r => if r = Req.byTitle "A" none then c2success else c2errResp
    search := fun _ => { Response := some "False" } }

/-- A client state with the rate-limited flag already set. -/
def c2flagged : ClientState := { rateLimited := true }

/-- Counterexample to C2 as stated: in the run A, B, A the second call
observes a rate-limit error and sets the flag, yet the third call returns
the earlier cached success for A — not the synthetic skipped-failure
response. (The cache check precedes the rate-limit check.) -/
theorem C2_counterexample :
    (runCallsEtl (some "k") c2net false
        [("A", none), ("B", none), ("A", none)] {}).1.map Prod.fst =
      [c2success, c2errResp, c2success] ∧
    (runCallsEtl (some "k") c2net false
        [("A", none), ("B", none), ("A", none)] {}).2.rateLimited = true ∧
    c2success ≠ skippedResp := by
  refine ⟨?_, ?_, ?_⟩ <;> decide

/-- Witness for C2 at concrete inputs: flag set by a marker match in both
clients; a flagged call makes no request and returns the synthetic
skipped failure for an uncached key. -/
theorem C2_rate_limit_degrade_witness :
    (query_omdb_etl (some "k") c2net "B" none {} false).2.1.rateLimited = true ∧
    (query_omdb_enrich (some "k") c2net "B" none {} false).2.1.rateLimited = true ∧
    (query_omdb_etl (some "k") c2net "C" none c2flagged false).2.2 = [] ∧
    (query_omdb_enrich (some "k") c2net "C" none c2flagged false).1 = skippedResp :=
  ⟨C2_rate_limit_degrade.1 (some "k") c2net "B" none {} (by decide) (by decide)
      (by decide) (by decide) (by decide),
   C2_rate_limit_degrade.2.1 (some "k") c2net "B" none {} (by decide) (by decide)
      (by decide) (by decide),
   ((C2_rate_limit_degrade.2.2.1 (some "k") c2net "C" none c2flagged false (by decide)).1).1,
   (((C2_rate_limit_degrade.2.2.1 (some "k") c2net "C" none c2flagged false
      (by decide)).2).2.2.1) (by decide)⟩

/-! ## Claim C3: the not-available sentinel -/

/-- Counterexample to C3 as stated: a successful response whose imdbID
field is the literal marker string is normalized with the marker stored
as literal field text — the external ID is not sentinel-checked. -/
theorem C3_counterexample :
    (clean_omdb_response { Response := some "True", imdbID := some "N/A" }).bind
      (fun c => c.imdb_id) = some "N/A" := by decide

/-- C3 (amended): the Normalizer maps every scalar metadata field that
equals the not-available marker to absent — except the external ID, which
is copied verbatim from the raw response (even when it equals the
marker). -/
theorem C3_na_sentinel (r : OmdbRaw) (c : CleanRec)
    (h : clean_omdb_response r = some c) :
    (r.Director = some "N/A" → c.director = none) ∧
    (r.Plot = some "N/A" → c.plot = none) ∧
    (r.BoxOffice = some "N/A" → c.box_office = none) ∧
    (r.Released = some "N/A" → c.released = none) ∧
    (r.Runtime = some "N/A" → c.runtime_minutes = none) ∧
    c.imdb_id = r.imdbID := by
  unfold clean_omdb_response at h
  split at h
  · exact absurd h (by simp)
  · rw [Option.some_inj] at h
    subst h
    refine ⟨?_, ?_, ?_, ?_, ?_, rfl⟩
    · intro hf; rw [hf]; show naFilter (some "N/A") = none; decide
    · intro hf; rw [hf]; show naFilter (some "N/A") = none; decide
    · intro hf; rw [hf]; show naFilter (some "N/A") = none; decide
    · intro hf; rw [hf]; show parseReleased (some "N/A") = none; decide
    · intro hf; rw [hf]; show parseRuntimeMin (some "N/A") = none; decide

/-- A raw response exercising every sentinel position for the C3 witness. -/
def c3raw : OmdbRaw :=
  { Response := some "True", imdbID := some "tt3", Director := some "N/A",
    Plot := some "N/A", BoxOffice := some "N/A", Released := some "N/A",
    Runtime := some "N/A" }

/-- The canonical record c3raw normalizes to. -/
def c3rec : CleanRec := { imdb_id := some "tt3" }

/-- Witness for C3 (amended) at a concrete response. -/
theorem C3_na_sentinel_witness :
    clean_omdb_response c3raw = some c3rec ∧
    ((c3raw.Director = some "N/A" → c3rec.director = none) ∧
     (c3raw.Plot = some "N/A" → c3rec.plot = none) ∧
     (c3raw.BoxOffice = some "N/A" → c3rec.box_office = none) ∧
     (c3raw.Released = some "N/A" → c3rec.released = none) ∧
     (c3raw.Runtime = some "N/A" → c3rec.runtime_minutes = none) ∧
     c3rec.imdb_id = c3raw.imdbID) :=
  ⟨by decide, C3_na_sentinel c3raw c3rec (by decide)⟩

/-! ## Claim C5: totality of the Normalizer -/

theorem naFilterV_opt (o : Option String) :
    naFilterV (pyValOfOpt o) = pyValOfOpt (naFilter o) := by
  cases o with
  | none => rfl
  | some s =>
    simp only [pyValOfOpt, naFilterV, naFilter, pyTruthyV, pyEqStrV]
    by_cases he : s.isEmpty <;> by_cases hn : s = "N/A" <;> simp [he, hn]

theorem releasedStepV_opt (o : Option String) :
    releasedStepV (pyValOfOpt o) = parseReleased o := by
  cases o with
  | none => rfl
  | some s =>
    simp only [pyValOfOpt, releasedStepV, parseReleased, pyTruthyV, pyEqStrV,
      strptimeDMYV, strptimeYMDV]
    by_cases he : s.isEmpty <;> by_cases hn : s = "N/A" <;> simp [he, hn]

theorem runtimeStepV_opt (o : Option String) :
    runtimeStepV (pyValOfOpt o) = Except.ok (parseRuntimeMin o) := by
  cases o with
  | none => rfl
  | some s =>
    simp only [pyValOfOpt, runtimeStepV, parseRuntimeMin, pyTruthyV]
    by_cases he : s.isEmpty <;> by_cases hm : strContainsSub s "min" <;> simp [he, hm]

theorem omdbRawV_truthy (r : OmdbRaw) : (omdbRawV r).truthy = r.truthy := by
  have h : ∀ o : Option String, (pyValOfOpt o).isPresent = o.isSome := by
    intro o; cases o <;> rfl
  simp only [omdbRawV, OmdbRawV.truthy, OmdbRaw.truthy, h]

/-- C5 (code bug): the Normalizer is NOT total on the documents the
program can actually feed it. The membership test `"min" in runtime`
sits outside the try-block, so a document with a truthy numeric Runtime
(reachable verbatim from the cache file) raises an uncaught TypeError.
(1) evaluates the code at that failing input; (2) on every document
whose Runtime is not a number the Normalizer returns normally; (3) on
string-typed documents it never raises and agrees with the string-typed
model clean_omdb_response. -/
theorem C5_normalizer_type_error :
    cleanOmdbResponseV { Response := PyVal.vStr "True", Runtime := PyVal.vInt 142 } =
      Except.error PyExc.typeError ∧
    (∀ r : OmdbRawV, r.Runtime.isInt = false →
      ∃ v, cleanOmdbResponseV r = Except.ok v) ∧
    (∀ r : OmdbRaw, cleanOmdbResponseV (omdbRawV r) =
      Except.ok ((clean_omdb_response r).map cleanRecV)) := by
  refine ⟨by decide, ?_, ?_⟩
  · intro r h
    unfold cleanOmdbResponseV
    split
    · exact ⟨none, rfl⟩
    · have hr : ∃ m, runtimeStepV r.Runtime = Except.ok m := by
        unfold runtimeStepV
        cases hv : r.Runtime with
        | vNone => exact ⟨none, by simp [pyTruthyV]⟩
        | vStr s =>
          by_cases ht : pyTruthyV (PyVal.vStr s) = true
          · by_cases hm : strContainsSub s "min" = true
            · exact ⟨(runtimeBlockE s).toOption, by simp [ht, hm]⟩
            · exact ⟨none, by simp [ht, hm]⟩
          · exact ⟨none, by simp [ht]⟩
        | vInt n =>
          rw [hv] at h
          exact absurd h (by simp [PyVal.isInt])
      obtain ⟨m, hm⟩ := hr
      rw [hm]
      exact ⟨_, rfl⟩
  · intro r
    have hresp : pyEqStrV (omdbRawV r).Response "False" =
        decide (r.Response = some "False") := by
      cases hx : r.Response with
      | none => simp [omdbRawV, pyValOfOpt, pyEqStrV, hx]
      | some s => simp [omdbRawV, pyValOfOpt, pyEqStrV, hx]
    unfold cleanOmdbResponseV clean_omdb_response
    rw [omdbRawV_truthy, hresp]
    by_cases hc : (!r.truthy || decide (r.Response = some "False")) = true
    · rw [if_pos hc, if_pos hc]
      rfl
    · rw [if_neg hc, if_neg hc]
      rw [show (omdbRawV r).Runtime = pyValOfOpt r.Runtime from rfl, runtimeStepV_opt]
      simp only [Option.map_some]
      rw [show (omdbRawV r).imdbID = pyValOfOpt r.imdbID from rfl,
        show (omdbRawV r).Director = pyValOfOpt r.Director from rfl,
        show (omdbRawV r).Plot = pyValOfOpt r.Plot from rfl,
        show (omdbRawV r).BoxOffice = pyValOfOpt r.BoxOffice from rfl,
        show (omdbRawV r).Released = pyValOfOpt r.Released from rfl,
        naFilterV_opt, naFilterV_opt, naFilterV_opt, releasedStepV_opt]
      rfl

/-- Witness for C5 at concrete documents: a string Runtime of the same
shape returns normally, and a concrete string-typed document agrees with
the string-typed model. -/
theorem C5_normalizer_type_error_witness :
    (∃ v, cleanOmdbResponseV { Response := PyVal.vStr "True", Runtime := PyVal.vStr "142 min" } =
      Except.ok v) ∧
    cleanOmdbResponseV (omdbRawV { Response := some "True", Director := some "D5" }) =
      Except.ok ((clean_omdb_response { Response := some "True", Director := some "D5" }).map
        cleanRecV) :=
  ⟨C5_normalizer_type_error.2.1
    { Response := PyVal.vStr "True", Runtime := PyVal.vStr "142 min" } (by decide),
   C5_normalizer_type_error.2.2 { Response := some "True", Director := some "D5" }⟩

/-! ## Claim C1: the uniqueness retry -/

theorem storeWf_imdb_unique {s : Store} (hwf : StoreWf s) :
    ∀ a ∈ s, ∀ b ∈ s, a ≠ b → ¬(a.imdb_id.isSome = true ∧ a.imdb_id = b.imdb_id) := by
  have hS : s.Pairwise (fun a b : MovieRow =>
      ¬(a.imdb_id.isSome = true ∧ a.imdb_id = b.imdb_id)) :=
    hwf.imp (fun h hc => h.2 hc.1 hc.2)
  refine hS.forall ?_
  intro a b hab hc
  rcases hc with ⟨hbs, hba⟩
  exact hab ⟨by rw [← hba]; exact hbs, hba.symm⟩

theorem fallbackViolation_false {s : Store} (p : UpsertParams) (hwf : StoreWf s) :
    fallbackViolation s p = false := by
  unfold fallbackViolation fallbackNewImdb
  cases hlk : movieLookup s p.id with
  | none => simp
  | some old =>
    cases hoi : old.imdb_id with
    | none => simp [hoi]
    | some x =>
      simp only [hoi]
      rw [List.any_eq_false]
      intro r hr hcontra
      simp only [Bool.and_eq_true, decide_eq_true_eq] at hcontra
      have hold_mem : old ∈ s := List.mem_of_find?_eq_some hlk
      have hold_id : old.id = p.id := by
        have := List.find?_some hlk
        exact of_decide_eq_true this
      have hne : old ≠ r := by
        intro hEq
        exact hcontra.1 (hEq ▸ hold_id)
      exact storeWf_imdb_unique hwf old hold_mem r hr hne
        ⟨by rw [hoi]; rfl, by rw [hoi, hcontra.2]⟩

theorem update_movie_noImdb_ne (s : Store) (mid : Int) (d : CleanRec)
    (h : pyStrTruthy d.imdb_id = false) (e : IntegrityErr) :
    update_movie s mid d ≠ Except.error e := by
  intro hc
  unfold update_movie at hc
  simp only [h, Bool.false_or, Bool.false_and] at hc
  split at hc
  · cases hc
  · split at hc
    · cases hc
    · simp at hc

theorem update_movie_noFields (s : Store) (mid : Int) (d : CleanRec)
    (h0 : pyStrTruthy d.imdb_id = false)
    (hc : (pyStrTruthy d.director || pyStrTruthy d.plot ||
      pyStrTruthy d.box_office || pyStrTruthy d.released ||
      d.runtime_minutes.isSome) = false) :
    update_movie s mid d = Except.ok (s, false) := by
  unfold update_movie
  rw [h0]
  simp only [Bool.false_or, hc]
  simp

/-- C1: when a write raises a uniqueness violation on the external-ID
field, (1) the full-pipeline Upsert Engine retries via fallback_sql — the
same write with imdb_id forced to absent and all other field updates
preserved — and the violation does not escape; (2) the enrichment
handler leaves the store exactly as the update-only write with imdb_id
forced to absent would, and returns normally. -/
theorem C1_uniqueness_retry :
    (∀ (s : Store) (p : UpsertParams) (e : IntegrityErr), StoreWf s →
      execUpsert s p = Except.error e →
      etlUpsertWithRetry s p = Except.ok (fallbackApply s p)) ∧
    (∀ (s : Store) (mid : Int) (d : CleanRec) (e : IntegrityErr),
      update_movie s mid d = Except.error e →
      ∃ S b de ds, update_movie s mid { d with imdb_id := none } = Except.ok (S, b) ∧
        enrichHandleUpdate s mid d = Except.ok (S, de, ds)) := by
  constructor
  · intro s p e hwf herr
    have he : e = { msg := "UNIQUE constraint failed: movies.imdb_id" } := by
      unfold execUpsert at herr
      split at herr
      · exact (Except.error.inj herr).symm
      · exact absurd herr (by simp)
    have hc : (strContainsSub (pyLower "UNIQUE constraint failed: movies.imdb_id") "imdb_id" ||
        strContainsSub (pyLower "UNIQUE constraint failed: movies.imdb_id")
          "unique constraint failed: movies.imdb_id") = true := by decide
    unfold etlUpsertWithRetry
    rw [herr, he]
    simp only [hc, if_true]
    unfold execFallback
    rw [fallbackViolation_false p hwf]
    simp
  · intro s mid d e herr
    by_cases hcond : (pyStrTruthy d.director || pyStrTruthy d.plot ||
        pyStrTruthy d.box_office || pyStrTruthy d.released ||
        d.runtime_minutes.isSome) = true
    · cases hu : update_movie s mid { d with imdb_id := none } with
      | error e2 =>
        exact absurd hu (update_movie_noImdb_ne s mid { d with imdb_id := none } rfl e2)
      | ok pr =>
        obtain ⟨S, b⟩ := pr
        refine ⟨S, b, 1, 0, rfl, ?_⟩
        unfold enrichHandleUpdate
        rw [herr]
        simp only [hcond, if_true, hu]
    · rw [Bool.not_eq_true] at hcond
      have hupd2 : update_movie s mid { d with imdb_id := none } = Except.ok (s, false) :=
        update_movie_noFields s mid { d with imdb_id := none } rfl hcond
      refine ⟨s, false, 0, 0, hupd2, ?_⟩
      unfold enrichHandleUpdate
      rw [herr]
      simp only [hcond]
      simp

/-- A two-row store whose first row already holds the external id that
the C1 witness writes to the second row. -/
def c1store : Store :=
  [{ id := 1, title := "A", imdb_id := some "tt1" }, { id := 2, title := "B" }]

/-- The conflicting parameters of the C1 witness. -/
def c1params : UpsertParams :=
  { id := 2, title := "B", imdb_id := some "tt1", director := some "D1" }

/-- The conflicting partial-record of the C1 witness. -/
def c1rec : CleanRec := { imdb_id := some "tt1", director := some "D1" }

/-- The integrity error both engines raise. -/
def c1err : IntegrityErr := { msg := "UNIQUE constraint failed: movies.imdb_id" }

/-- Witness for C1: the conflicting write errors and both engines recover
at a concrete store. -/
theorem C1_uniqueness_retry_witness :
    (StoreWf c1store ∧ execUpsert c1store c1params = Except.error c1err ∧
      etlUpsertWithRetry c1store c1params = Except.ok (fallbackApply c1store c1params)) ∧
    (update_movie c1store 2 c1rec = Except.error c1err ∧
      ∃ S b de ds,
        update_movie c1store 2 { c1rec with imdb_id := none } = Except.ok (S, b) ∧
        enrichHandleUpdate c1store 2 c1rec = Except.ok (S, de, ds)) :=
  ⟨⟨by decide, by decide,
    C1_uniqueness_retry.1 c1store c1params c1err (by decide) (by decide)⟩,
   ⟨by decide, C1_uniqueness_retry.2 c1store 2 c1rec c1err (by decide)⟩⟩

/-! ## Claim C6: the referential ratings filter of full-load mode -/

theorem validMovieIds_mem (store : Store) (moviesDf : List MovieInput) (x : Int) :
    x ∈ validMovieIds store moviesDf ↔
      (∃ m ∈ store, m.id = x) ∨ (∃ mi ∈ moviesDf, mi.movieId = x) := by
  simp only [validMovieIds, List.mem_append, List.mem_map]

/-- C6: in full-load mode a rating row is kept exactly when its movie id
is among the ids already in the store or the ids of the movie rows
processed this run; every other row is dropped and the dropped count
equals the number of rows failing that membership test. -/
theorem C6_referential_filter (store : Store) (moviesDf : List MovieInput)
    (ratings : List RatingRow) :
    (∀ r : RatingRow, r ∈ filterRatings store moviesDf ratings ↔
      r ∈ ratings ∧ ((∃ m ∈ store, m.id = r.movieId) ∨
        (∃ mi ∈ moviesDf, mi.movieId = r.movieId))) ∧
    droppedRatingsCount store moviesDf ratings =
      (ratings.filter (fun r =>
        decide (¬((∃ m ∈ store, m.id = r.movieId) ∨
          (∃ mi ∈ moviesDf, mi.movieId = r.movieId))))).length := by
  have hpred : ∀ r : RatingRow,
      ((validMovieIds store moviesDf).contains r.movieId) =
        decide ((∃ m ∈ store, m.id = r.movieId) ∨ (∃ mi ∈ moviesDf, mi.movieId = r.movieId)) := by
    intro r
    rw [show (validMovieIds store moviesDf).contains r.movieId =
        decide (r.movieId ∈ validMovieIds store moviesDf) from by
      simp [List.contains]]
    rw [decide_eq_decide]
    exact validMovieIds_mem store moviesDf r.movieId
  constructor
  · intro r
    rw [filterRatings, List.mem_filter, hpred r]
    simp
  · have hfc : ratings.filter (fun r =>
        !((validMovieIds store moviesDf).contains r.movieId)) =
        ratings.filter (fun r =>
          decide (¬((∃ m ∈ store, m.id = r.movieId) ∨
            (∃ mi ∈ moviesDf, mi.movieId = r.movieId)))) := by
      refine List.filter_congr ?_
      intro r _
      rw [hpred r, decide_not]
    have hlen := List.length_eq_length_filter_add (l := ratings)
      (fun r => (validMovieIds store moviesDf).contains r.movieId)
    rw [droppedRatingsCount, filterRatings, ← hfc]
    omega

/-! ## Claim C7: enrichment candidate selection -/

instance (ratings : List RatingRow) : IsTotal MovieRow (cntGE ratings) :=
  ⟨fun _ _ => Nat.le_total _ _⟩

instance (ratings : List RatingRow) : IsTrans MovieRow (cntGE ratings) :=
  ⟨fun _ _ _ h1 h2 => le_trans h2 h1⟩

/-- C7: the candidate list is at most the batch size long, is ordered by
descending count of (non-null) ratings, contains only projections of
movie rows that have at least one rating row and are missing the director
or the external id, and — when the batch bound does not truncate —
contains every such movie row. -/
theorem C7_fetch_candidates (movies : Store) (ratings : List RatingRow) (batch : Nat) :
    (fetch_candidates movies ratings batch).length ≤ batch ∧
    List.Pairwise (fun a b : Int × String × Option Int =>
      ratingCount ratings b.1 ≤ ratingCount ratings a.1)
      (fetch_candidates movies ratings batch) ∧
    (∀ x ∈ fetch_candidates movies ratings batch, ∃ m ∈ movies,
      (∃ r ∈ ratings, r.movieId = m.id) ∧ (m.director = none ∨ m.imdb_id = none) ∧
      x = (m.id, m.title, m.year)) ∧
    (movies.length ≤ batch → ∀ m ∈ movies,
      (∃ r ∈ ratings, r.movieId = m.id) → (m.director = none ∨ m.imdb_id = none) →
      (m.id, m.title, m.year) ∈ fetch_candidates movies ratings batch) := by
  refine ⟨?_, ?_, ?_, ?_⟩
  · rw [fetch_candidates]
    rw [List.length_map, List.length_take]
    exact Nat.min_le_left _ _
  · rw [fetch_candidates, List.pairwise_map]
    exact (List.sorted_insertionSort (cntGE ratings) _).take
  · intro x hx
    rw [fetch_candidates] at hx
    obtain ⟨m, hmt, rfl⟩ := List.mem_map.mp hx
    have hms : m ∈ List.insertionSort (cntGE ratings) _ := List.mem_of_mem_take hmt
    have hmg := (List.mem_insertionSort (cntGE ratings)).mp hms
    have := List.mem_filter.mp hmg
    refine ⟨m, this.1, ?_, ?_, rfl⟩
    · have hb := this.2
      simp only [Bool.and_eq_true, hasRating, List.any_eq_true, decide_eq_true_eq] at hb
      obtain ⟨⟨r, hr, hrid⟩, _⟩ := hb
      exact ⟨r, hr, hrid⟩
    · have hb := this.2
      simp only [Bool.and_eq_true, Bool.or_eq_true, Option.isNone_iff_eq_none] at hb
      exact hb.2
  · intro hbatch m hm hr hmiss
    have hmg : m ∈ movies.filter
        (fun m => hasRating ratings m.id && (m.director.isNone || m.imdb_id.isNone)) := by
      rw [List.mem_filter]
      refine ⟨hm, ?_⟩
      simp only [Bool.and_eq_true, Bool.or_eq_true, hasRating, List.any_eq_true,
        decide_eq_true_eq, Option.isNone_iff_eq_none]
      obtain ⟨r, hrr, hrid⟩ := hr
      exact ⟨⟨r, hrr, hrid⟩, hmiss⟩
    rw [fetch_candidates]
    have hlen : (List.insertionSort (cntGE ratings) (movies.filter
        (fun m => hasRating ratings m.id &&
          (m.director.isNone || m.imdb_id.isNone)))).length ≤ batch := by
      rw [(List.perm_insertionSort (cntGE ratings) _).length_eq]
      exact le_trans (List.length_filter_le _ _) hbatch
    rw [List.take_of_length_le hlen]
    exact List.mem_map.mpr ⟨m, (List.mem_insertionSort (cntGE ratings)).mpr hmg, rfl⟩

/-- A movie row of the C7 witness missing only its director. -/
def c7m3 : MovieRow := { id := 3, title := "M3", imdb_id := some "i3" }

/-- The three-row store of the C7 witness. -/
def c7movies : Store :=
  [{ id := 1, title := "M1" },
   { id := 2, title := "M2", director := some "d", imdb_id := some "i" },
   c7m3]

/-- Ratings of the C7 witness: one for movie 1, two for movie 3. -/
def c7ratings : List RatingRow :=
  [{ userId := 9, movieId := 1, rating := some 4 },
   { userId := 9, movieId := 3, rating := some 3 },
   { userId := 8, movieId := 3, rating := some 5 }]

/-- Witness for C7 at a concrete store: the most-rated movie with a
missing field comes first and the fully-populated movie is excluded. -/
theorem C7_fetch_candidates_witness :
    fetch_candidates c7movies c7ratings 5 = [(3, "M3", none), (1, "M1", none)] ∧
    (fetch_candidates c7movies c7ratings 5).length ≤ 5 ∧
    List.Pairwise (fun a b : Int × String × Option Int =>
      ratingCount c7ratings b.1 ≤ ratingCount c7ratings a.1)
      (fetch_candidates c7movies c7ratings 5) ∧
    (∃ m ∈ c7movies,
      (∃ r ∈ c7ratings, r.movieId = m.id) ∧ (m.director = none ∨ m.imdb_id = none) ∧
      ((3 : Int), "M3", (none : Option Int)) = (m.id, m.title, m.year)) ∧
    ((3 : Int), "M3", (none : Option Int)) ∈ fetch_candidates c7movies c7ratings 5 :=
  ⟨by decide,
   (C7_fetch_candidates c7movies c7ratings 5).1,
   (C7_fetch_candidates c7movies c7ratings 5).2.1,
   (C7_fetch_candidates c7movies c7ratings 5).2.2.1
     ((3 : Int), "M3", (none : Option Int)) (by decide),
   (C7_fetch_candidates c7movies c7ratings 5).2.2.2 (by decide) c7m3 (by decide)
     (by decide) (by decide)⟩

/-! ## Claim C8: cache-flush discipline of the two orchestration modes -/

theorem flushCount_netCalls (l : List Req) : flushCount (l.map Ev.netCall) = 0 := by
  simp [flushCount, List.countP_map]

theorem flushCount_append (a b : List Ev) :
    flushCount (a ++ b) = flushCount a + flushCount b := by
  simp [flushCount, List.countP_append]

theorem etlMovieRow_evs (apiKey : Option String) (net : Net) (fast : Bool)
    (st st2 : EtlState) (row : MovieInput) (evs : List Ev)
    (h : etlMovieRow apiKey net fast st row = Except.ok (st2, evs)) :
    flushCount evs = 0 := by
  simp only [etlMovieRow] at h
  split at h
  · cases h
    exact flushCount_netCalls _
  · cases h

theorem etlRowsLoop_no_flush (apiKey : Option String) (net : Net) (fast : Bool) :
    ∀ (rows : List MovieInput) (st st2 : EtlState) (evs : List Ev),
      etlRowsLoop apiKey net fast rows st = Except.ok (st2, evs) → flushCount evs = 0 := by
  intro rows
  induction rows with
  | nil =>
    intro st st2 evs h
    cases h
    rfl
  | cons row rest ih =>
    intro st st2 evs h
    unfold etlRowsLoop at h
    split at h
    · cases h
    · split at h
      · cases h
      · rename_i st' evs1 hrow xsc st3 evs2 hloop
        cases h
        rw [flushCount_append, etlMovieRow_evs apiKey net fast st st' row evs1 hrow,
          ih st' st2 evs2 hloop]

/-- C8 (amended): in enrichment-only mode, an iteration whose client
response cleans to a record ends with exactly one cache flush, but an
iteration whose response cleans to absent is counted skipped and
performs no flush (the continue path bypasses save_cache); the main loop
appends one final flush when candidates exist; in full-load mode the
metadata phase flushes exactly once, at its very end. -/
theorem C8_cache_flush :
    (∀ (apiKey : Option String) (net : Net) (fast : Bool) (st : LoopState)
       (c : Int × String × Option Int) (st2 : LoopState) (evs : List Ev),
      enrichStep apiKey net fast st c = Except.ok (st2, evs) →
      (stepCleaned apiKey net fast st c = none →
        flushCount evs = 0 ∧ st2.skipped = st.skipped + 1) ∧
      (∀ rec2, stepCleaned apiKey net fast st c = some rec2 →
        ∃ body, evs = body ++ [Ev.flush] ∧ flushCount body = 0)) ∧
    (∀ (apiKey : Option String) (net : Net) (fast : Bool)
       (cands : List (Int × String × Option Int)) (st st2 : LoopState) (evs : List Ev),
      cands ≠ [] →
      enrichMain apiKey net fast cands st = Except.ok (st2, evs) →
      ∃ body, evs = body ++ [Ev.flush]) ∧
    (∀ (apiKey : Option String) (net : Net) (fast : Bool)
       (rows : List MovieInput) (st st2 : EtlState) (evs : List Ev),
      etlMoviePhase apiKey net fast rows st = Except.ok (st2, evs) →
      ∃ body, evs = body ++ [Ev.flush] ∧ flushCount body = 0) := by
  refine ⟨?_, ?_, ?_⟩
  · intro apiKey net fast st c st2 evs h
    constructor
    · intro hclean
      simp only [enrichStep] at h
      simp only [stepCleaned] at hclean
      simp only [hclean] at h
      cases h
      exact ⟨flushCount_netCalls _, rfl⟩
    · intro rec2 hclean
      simp only [enrichStep] at h
      simp only [stepCleaned] at hclean
      simp only [hclean] at h
      split at h
      · cases h
        exact ⟨_, rfl, flushCount_netCalls _⟩
      · cases h
  · intro apiKey net fast cands st st2 evs hne h
    cases cands with
    | nil => exact absurd rfl hne
    | cons c rest =>
      simp only [enrichMain] at h
      split at h
      · cases h
      · rename_i st3 evs2 hloop
        cases h
        exact ⟨evs2, rfl⟩
  · intro apiKey net fast rows st st2 evs h
    simp only [etlMoviePhase] at h
    split at h
    · cases h
    · rename_i st3 evs2 hloop
      cases h
      exact ⟨evs2, rfl, etlRowsLoop_no_flush apiKey net fast rows st st2 evs2 hloop⟩

/-- A network oracle that is never consulted in the fast runs below. -/
def c8net : Net := { lookup := fun _ => {}, search := fun _ => {} }

/-- Counterexample to C8 as stated: a fast-mode enrichment run over two
candidates processes (and skips) both records yet flushes the cache only
once in the whole run — the final save — not after every processed
record. -/
theorem C8_counterexample :
    (enrichMain none c8net true [(1, "T1", none), (2, "T2", none)]
        { client := {}, store := [] }).map
      (fun p => (p.1.skipped, flushCount p.2)) = Except.ok (2, 1) := by decide

/-- The state after the skipped fast-mode step of the C8 witness. -/
def c8stSkip : LoopState :=
  { client := { cache := [(mkKey "T" none, skippedResp)] }, store := [], skipped := 1 }

/-- A cached successful response for the C8 witness. -/
def c8goodRaw : OmdbRaw := { Response := some "True", Director := some "DD" }

/-- The state before the enriching step of the C8 witness. -/
def c8stG : LoopState :=
  { client := { cache := [(mkKey "G" none, c8goodRaw)] },
    store := [{ id := 5, title := "G" }] }

/-- The state after the enriching step of the C8 witness. -/
def c8stG2 : LoopState :=
  { client := { cache := [(mkKey "G" none, c8goodRaw)] },
    store := [{ id := 5, title := "G", director := some "DD" }], enriched := 1 }

/-- Witness for C8 (amended) at concrete runs: a skipped record flushes
nothing, an enriched record ends with a flush, the enrichment main adds
a final flush, and the full-load metadata phase ends in its single
flush. -/
theorem C8_cache_flush_witness :
    (flushCount ([] : List Ev) = 0 ∧ c8stSkip.skipped =
      ({ client := {}, store := [] } : LoopState).skipped + 1) ∧
    (∃ body, [Ev.flush] = body ++ [Ev.flush] ∧ flushCount body = 0) ∧
    (∃ body, [Ev.flush] = body ++ [Ev.flush]) ∧
    (∃ body, [Ev.flush] = body ++ [Ev.flush] ∧ flushCount body = 0) :=
  ⟨(C8_cache_flush.1 none c8net true { client := {}, store := [] } (1, "T", none)
      c8stSkip [] (by decide)).1 (by decide),
   (C8_cache_flush.1 none c8net true c8stG (5, "G", none) c8stG2 [Ev.flush]
      (by decide)).2 { director := some "DD" } (by decide),
   C8_cache_flush.2.1 none c8net true [(1, "T1", none), (2, "T2", none)]
      { client := {}, store := [] }
      { client := { cache := [(mkKey "T2" none, skippedResp), (mkKey "T1" none, skippedResp)] },
        store := [], skipped := 2 } [Ev.flush] (by simp) (by decide),
   C8_cache_flush.2.2 none c8net true [] { client := {}, store := [] }
      { client := {}, store := [] } [Ev.flush] (by decide)⟩

/-! ## Claim C10: the all-absent update is a no-op counted as skipped -/

theorem hupd_empty (s : Store) (mid : Int) :
    update_movie s mid {} = Except.ok (s, false) :=
  update_movie_noFields s mid {} rfl rfl

/-- C10: update_movie with an all-absent record executes no update,
leaves every movie row unchanged and returns False; the enrichment
orchestrator then counts that record as skipped, not enriched, and
leaves the store untouched. -/
theorem C10_empty_update :
    (∀ (s : Store) (mid : Int), update_movie s mid {} = Except.ok (s, false)) ∧
    (∀ (apiKey : Option String) (net : Net) (fast : Bool) (st : LoopState)
       (c : Int × String × Option Int) (st2 : LoopState) (evs : List Ev),
      stepCleaned apiKey net fast st c = some {} →
      enrichStep apiKey net fast st c = Except.ok (st2, evs) →
      st2.store = st.store ∧ st2.enriched = st.enriched ∧
        st2.skipped = st.skipped + 1) := by
  refine ⟨hupd_empty, ?_⟩
  intro apiKey net fast st c st2 evs hclean h
  simp only [enrichStep] at h
  simp only [stepCleaned] at hclean
  simp only [hclean] at h
  have hh : enrichHandleUpdate st.store c.1 {} = Except.ok (st.store, 0, 1) := by
    simp [enrichHandleUpdate, hupd_empty]
  simp only [hh] at h
  cases h
  exact ⟨rfl, rfl, rfl⟩

/-- A network oracle never consulted by the C10 witness. -/
def c10net : Net := { lookup := fun _ => {}, search := fun _ => {} }

/-- A cached success carrying no metadata fields at all. -/
def c10raw : OmdbRaw := { Response := some "True" }

/-- The state before the no-op step of the C10 witness. -/
def c10st : LoopState :=
  { client := { cache := [(mkKey "E" none, c10raw)] }, store := [{ id := 7, title := "E" }] }

/-- The state after the no-op step of the C10 witness. -/
def c10st2 : LoopState :=
  { client := { cache := [(mkKey "E" none, c10raw)] }, store := [{ id := 7, title := "E" }],
    skipped := 1 }

/-- Witness for C10 at a concrete store and a cached empty success. -/
theorem C10_empty_update_witness :
    update_movie c10st.store 7 {} = Except.ok (c10st.store, false) ∧
    (c10st2.store = c10st.store ∧ c10st2.enriched = c10st.enriched ∧
      c10st2.skipped = c10st.skipped + 1) :=
  ⟨C10_empty_update.1 c10st.store 7,
   C10_empty_update.2 none c10net false c10st (7, "E", none) c10st2 [Ev.flush]
     (by decide) (by decide)⟩
